import Mathlib

/-!
Shallow embedding of the grievance triage and prioritization core of the
CivicCare citizen-grievance application (source: src/types.ts, src/App.tsx,
src/components/AuthorityDashboard.tsx, src/components/CitizenPortal.tsx,
src/services/geminiService.ts), together with theorems settling the frozen
claims about its natural-language specification.

Conventions of the embedding:
- timestamps (ISO strings in the source, always consumed through
  `new Date(x).getTime()`) are modelled as natural numbers of milliseconds
  since the epoch;
- JavaScript `undefined` for optional fields is modelled with `Option`;
- the in-memory grievance set (a React state array) is a `List Grievance`,
  and the state-updating callbacks of App.tsx are pure functions from the
  previous list to the next one, exactly mirroring the `setGrievances`
  closures;
- `Array.prototype.sort`, which ECMAScript requires to be a stable sort
  consistent with the comparator, is modelled by `List.insertionSort` with
  the total preorder induced by the comparator (Mathlib insertion sort is
  stable, so it computes the unique stable sorted permutation).
-/

namespace CivicCare

/-- Priority enum of src/types.ts. -/
inductive Priority
  | CRITICAL
  | HIGH
  | MEDIUM
  | LOW
deriving DecidableEq, Repr

/-- GrievanceStatus enum of src/types.ts. -/
inductive GrievanceStatus
  | PENDING
  | IN_PROGRESS
  | RESOLVED
  | REJECTED
deriving DecidableEq, Repr

/-- GrievanceHistory interface of src/types.ts (timestamp modelled in epoch ms). -/
structure GrievanceHistory where
  timestamp : Nat
  action : String
  details : String
deriving DecidableEq, Repr

/-- The imageAnalysis field of aiAnalysis in src/types.ts (status and quality
are string literal unions in the source; modelled as strings). -/
structure ImageAnalysis where
  status : String
  quality : String
  description : String
deriving DecidableEq, Repr

/-- The aiAnalysis field of a Grievance, src/types.ts. The urgencyScore is
declared `number` in the interface, but the object constructed in
CitizenPortal.tsx handleSubmit omits it, so at runtime it can be undefined;
it is therefore modelled as `Option Nat`. -/
structure AIAnalysis where
  sentiment : String
  suggestedResolution : String
  urgencyReason : String
  riskFactors : Option (List String)
  isCriticalFacility : Option Bool
  language : Option String
  urgencyScore : Option Nat
  imageAnalysis : Option ImageAnalysis
deriving Repr

/-- The location field of a Grievance, src/types.ts. -/
structure GeoPoint where
  lat : Float
  lng : Float
  address : String
deriving Repr

/-- Grievance interface of src/types.ts. -/
structure Grievance where
  id : String
  citizenName : String
  citizenPhone : Option String
  category : String
  description : String
  location : Option GeoPoint
  city : String
  state : String
  priority : Priority
  status : GrievanceStatus
  timestamp : Nat
  department : String
  evidenceUrls : List String
  assignedTo : Option String
  resolutionNote : Option String
  aiAnalysis : Option AIAnalysis
  history : Option (List GrievanceHistory)
deriving Repr

/-- Jurisdiction interface of src/types.ts. -/
structure Jurisdiction where
  state : String
  city : String
deriving DecidableEq, Repr

/-- The Role union type of src/App.tsx (null is modelled by using
`Option Role` where the source allows null). -/
inductive Role
  | citizen
  | officer
  | admin
deriving DecidableEq, Repr

/-- Milliseconds in one day, the constant 1000 * 60 * 60 * 24 used by
AuthorityDashboard.tsx for age and SLA computations. -/
def msPerDay : Nat := 1000 * 60 * 60 * 24

/-- Absolute difference of two epoch instants, modelling
`Math.abs(new Date().getTime() - new Date(g.timestamp).getTime())`. -/
def absDiff (now ts : Nat) : Nat := if ts ≤ now then now - ts else ts - now

/-- Age of a grievance in days, modelling
`Math.ceil(diffTime / (1000 * 60 * 60 * 24))` in the alerts useMemo of
AuthorityDashboard.tsx (natural-number ceiling division). -/
def diffDays (now ts : Nat) : Nat := (absDiff now ts + msPerDay - 1) / msPerDay

/-- The effective urgency score of a grievance, modelling
`(g.aiAnalysis?.urgencyScore || 0)`: 0 when aiAnalysis or its urgencyScore
is absent. -/
def urgencyScoreOf (g : Grievance) : Nat :=
  match g.aiAnalysis with
  | none => 0
  | some a => a.urgencyScore.getD 0

end CivicCare

namespace CivicCare

/-! Generic infrastructure: a stable descending sort keyed by a pair of
naturals, used to model the two `Array.prototype.sort` calls of
AuthorityDashboard.tsx. A JavaScript comparator `cmp` whose sign is
determined by such a key induces the total preorder below; the ECMAScript
specification requires sort to return the stable sorted permutation, which
Mathlib insertion sort computes. -/

/-- Lexicographic order on pairs of naturals. -/
def lexLe (x y : Nat × Nat) : Prop := x.1 < y.1 ∨ (x.1 = y.1 ∧ x.2 ≤ y.2)

instance (x y : Nat × Nat) : Decidable (lexLe x y) :=
  inferInstanceAs (Decidable (x.1 < y.1 ∨ (x.1 = y.1 ∧ x.2 ≤ y.2)))

/-- The total preorder induced by a comparator that orders elements by a
Nat-pair key, largest key first: a may come before b iff the key of b is
lexicographically at most the key of a. -/
def keyDescOrder {α : Type} (k : α → Nat × Nat) (a b : α) : Prop := lexLe (k b) (k a)

instance {α : Type} (k : α → Nat × Nat) : DecidableRel (keyDescOrder k) :=
  fun a b => inferInstanceAs (Decidable (lexLe (k b) (k a)))

instance {α : Type} (k : α → Nat × Nat) : IsTotal α (keyDescOrder k) := by
  constructor
  intro a b
  unfold keyDescOrder lexLe
  omega

instance {α : Type} (k : α → Nat × Nat) : IsTrans α (keyDescOrder k) := by
  constructor
  intro a b c
  unfold keyDescOrder lexLe
  omega

/-- Stability of the modelled sort: filtering the sorted output by any single
key value gives the same list as filtering the input, so elements with equal
keys keep their relative input order. -/
theorem filter_key_insertionSort {α : Type} (k : α → Nat × Nat) (l : List α) (c : Nat × Nat) :
    (l.insertionSort (keyDescOrder k)).filter (fun x => decide (k x = c)) =
      l.filter (fun x => decide (k x = c)) := by
  have hmem : ∀ x ∈ l.filter (fun x => decide (k x = c)), k x = c := by
    intro x hx
    exact of_decide_eq_true (List.mem_filter.mp hx).2
  have hpair : (l.filter (fun x => decide (k x = c))).Pairwise (keyDescOrder k) := by
    refine List.pairwise_of_forall_mem_list ?_
    intro a ha b hb
    unfold keyDescOrder lexLe
    rw [hmem a ha, hmem b hb]
    omega
  have hsub : List.Sublist (l.filter (fun x => decide (k x = c)))
      (l.insertionSort (keyDescOrder k)) :=
    List.sublist_insertionSort hpair (List.filter_sublist l)
  have hself : (l.filter (fun x => decide (k x = c))).filter (fun x => decide (k x = c)) =
      l.filter (fun x => decide (k x = c)) := by
    refine List.filter_eq_self.mpr ?_
    intro a ha
    exact decide_eq_true (hmem a ha)
  have hsub2 : List.Sublist (l.filter (fun x => decide (k x = c)))
      ((l.insertionSort (keyDescOrder k)).filter (fun x => decide (k x = c))) := by
    have h2 := hsub.filter (fun x => decide (k x = c))
    rwa [hself] at h2
  have hperm : List.Perm ((l.insertionSort (keyDescOrder k)).filter (fun x => decide (k x = c)))
      (l.filter (fun x => decide (k x = c))) :=
    (List.perm_insertionSort (keyDescOrder k) l).filter _
  exact (hsub2.eq_of_length hperm.length_eq.symm).symm

end CivicCare

namespace CivicCare

/-! Jurisdiction filter, AuthorityDashboard.tsx relevantGrievances. -/

/-- The value of the optional chain `jurisdiction?.city` as the string whose
JavaScript truthiness the guard tests (undefined is falsy like the empty
string, and the subsequent comparison `g.city === jurisdiction.city` reads
the same value). -/
def jCity (j : Option Jurisdiction) : String :=
  match j with
  | none => ""
  | some jj => jj.city

/-- The value of the optional chain `jurisdiction?.state`, as for jCity. -/
def jState (j : Option Jurisdiction) : String :=
  match j with
  | none => ""
  | some jj => jj.state

/-- Jurisdiction filter of AuthorityDashboard.tsx (the relevantGrievances
useMemo): an officer with a truthy jurisdiction city sees that city, an
admin with a truthy jurisdiction state sees that state, and every other
combination (including empty city or state, which are falsy) falls through
to the whole list. -/
def relevantGrievances (grievances : List Grievance) (userRole : Role)
    (jurisdiction : Option Jurisdiction) : List Grievance :=
  if userRole = Role.officer ∧ jCity jurisdiction ≠ "" then
    grievances.filter (fun g => decide (g.city = jCity jurisdiction))
  else if userRole = Role.admin ∧ jState jurisdiction ≠ "" then
    grievances.filter (fun g => decide (g.state = jState jurisdiction))
  else grievances

/-! Priority ordering, AuthorityDashboard.tsx filteredGrievances sort. -/

/-- The fixed priority rank map of the filteredGrievances comparator. -/
def priorityOrder (p : Priority) : Nat :=
  match p with
  | Priority.CRITICAL => 3
  | Priority.HIGH => 2
  | Priority.MEDIUM => 1
  | Priority.LOW => 0

/-- Sort key of the filteredGrievances comparator: priority rank first, then
timestamp, both compared descending. -/
def queueKey (g : Grievance) : Nat × Nat := (priorityOrder g.priority, g.timestamp)

/-- The queue ordering: the stable sort performed on filteredGrievances in
AuthorityDashboard.tsx (priority rank descending, then timestamp
descending), applied to an arbitrary input list. -/
def sortForQueue (gs : List Grievance) : List Grievance :=
  gs.insertionSort (keyDescOrder queueKey)

/-! Alert detector, AuthorityDashboard.tsx alerts useMemo. -/

/-- Alert type union of the DashboardAlert interface. -/
inductive AlertType
  | CRITICAL
  | SLA
  | BOTH
deriving DecidableEq, Repr

/-- DashboardAlert record pushed by the alerts useMemo. -/
structure DashboardAlert where
  id : String
  grievance : Grievance
  type : AlertType
  message : String
  daysOverdue : Option Nat
deriving Repr

/-- The isCritical flag of the alerts useMemo:
`g.priority === Priority.CRITICAL || (g.aiAnalysis?.urgencyScore || 0) >= 80`. -/
def isCriticalG (g : Grievance) : Prop :=
  g.priority = Priority.CRITICAL ∨ 80 ≤ urgencyScoreOf g

instance (g : Grievance) : Decidable (isCriticalG g) :=
  inferInstanceAs (Decidable (g.priority = Priority.CRITICAL ∨ 80 ≤ urgencyScoreOf g))

/-- The isSlaBreach flag of the alerts useMemo: `diffDays > 7`. -/
def isSlaBreachG (now : Nat) (g : Grievance) : Prop := 7 < diffDays now g.timestamp

instance (now : Nat) (g : Grievance) : Decidable (isSlaBreachG now g) :=
  inferInstanceAs (Decidable (7 < diffDays now g.timestamp))

/-- Alert emitted for a single grievance by the loop body of the alerts
useMemo: terminal statuses are skipped, a grievance that is critical or
SLA-breached pushes one alert whose type and message follow the
BOTH / CRITICAL / SLA classification, and daysOverdue is set only on an SLA
breach. -/
def alertFor (now : Nat) (g : Grievance) : Option DashboardAlert :=
  if g.status = GrievanceStatus.RESOLVED ∨ g.status = GrievanceStatus.REJECTED then none
  else if isSlaBreachG now g ∨ isCriticalG g then
    some
      { id := g.id
        grievance := g
        type :=
          if isCriticalG g ∧ isSlaBreachG now g then AlertType.BOTH
          else if isCriticalG g then AlertType.CRITICAL
          else AlertType.SLA
        message :=
          if isCriticalG g ∧ isSlaBreachG now g then
            "Critical Risk & Overdue (+" ++ toString (diffDays now g.timestamp - 7) ++ " days)"
          else if isCriticalG g then "High Urgency / Critical Priority detected"
          else "Overdue by " ++ toString (diffDays now g.timestamp - 7) ++ " days"
        daysOverdue :=
          if isSlaBreachG now g then some (diffDays now g.timestamp - 7) else none }
  else none

/-- Severity rank of the alert sort comparator:
`type === BOTH ? 3 : type === CRITICAL ? 2 : 1`. -/
def alertScore (t : AlertType) : Nat :=
  match t with
  | AlertType.BOTH => 3
  | AlertType.CRITICAL => 2
  | AlertType.SLA => 1

/-- Sort key for the alert sort (severity only; the second component is
unused by the comparator and fixed to 0). -/
def alertKey (a : DashboardAlert) : Nat × Nat := (alertScore a.type, 0)

/-- Alert detector of the alerts useMemo: one optional alert per grievance
in input order, then the stable severity-descending sort
`activeAlerts.sort((a, b) => score(b.type) - score(a.type))`. -/
def detectAlerts (gs : List Grievance) (now : Nat) : List DashboardAlert :=
  (gs.filterMap (alertFor now)).insertionSort (keyDescOrder alertKey)

end CivicCare

namespace CivicCare

/-! Aggregation engine, AuthorityDashboard.tsx cityStats useMemo (the
per-grievance aggregation loop; the demo seed entries that the useMemo
afterwards injects for the Maharashtra and Delhi jurisdictions are hardcoded
visual mock data, outside the rollup over the grievance set). -/

/-- Per-city rollup record built in the cityMap. The avgRes field is
initialised to its placeholder and never updated by the loop. -/
structure CityStat where
  city : String
  active : Nat
  critical : Nat
  avgRes : String
  escalations : Nat
deriving DecidableEq, Repr

/-- The fresh entry `{ city: g.city, active: 0, critical: 0, avgRes: Z, escalations: 0 }`
created when a city is first seen. -/
def zeroStat (c : String) : CityStat :=
  { city := c, active := 0, critical := 0, avgRes := "0 days", escalations := 0 }

/-- The three conditional increments the loop applies to the entry of the
current grievance: active for status other than RESOLVED, critical for
CRITICAL priority, and escalations when the raw millisecond age exceeds
7 days and status is not RESOLVED. -/
def bumpStat (now : Nat) (g : Grievance) (s : CityStat) : CityStat :=
  { s with
    active := s.active + (if g.status ≠ GrievanceStatus.RESOLVED then 1 else 0)
    critical := s.critical + (if g.priority = Priority.CRITICAL then 1 else 0)
    escalations := s.escalations +
      (if 7 * msPerDay < absDiff now g.timestamp ∧ g.status ≠ GrievanceStatus.RESOLVED
       then 1 else 0) }

/-- One iteration of the cityStats forEach: create the entry of g.city on
first sight (appended, matching string-keyed object insertion order), then
apply the increments to it. -/
def cityStep (now : Nat) (g : Grievance) : List CityStat → List CityStat
  | [] => [bumpStat now g (zeroStat g.city)]
  | s :: rest =>
      if s.city = g.city then bumpStat now g s :: rest
      else s :: cityStep now g rest

/-- City-wise aggregation of the cityStats useMemo: fold of the forEach over
the grievance list, starting from the empty map. -/
def cityRollup (gs : List Grievance) (now : Nat) : List CityStat :=
  gs.foldl (fun m g => cityStep now g m) []

/-- Lookup of a city entry in the rollup (cityMap[city]). -/
def lookupCity (m : List CityStat) (c : String) : Option CityStat :=
  m.find? (fun s => decide (s.city = c))

/-- Number of grievances of a city with status other than RESOLVED. -/
def activeCount (gs : List Grievance) (c : String) : Nat :=
  gs.countP (fun g => decide (g.city = c ∧ g.status ≠ GrievanceStatus.RESOLVED))

/-- Number of grievances of a city with CRITICAL priority. -/
def criticalCount (gs : List Grievance) (c : String) : Nat :=
  gs.countP (fun g => decide (g.city = c ∧ g.priority = Priority.CRITICAL))

/-- Number of grievances of a city older than 7 days (raw millisecond
comparison) with status other than RESOLVED. -/
def escalationCount (gs : List Grievance) (now : Nat) (c : String) : Nat :=
  gs.countP (fun g =>
    decide (g.city = c ∧ 7 * msPerDay < absDiff now g.timestamp ∧
      g.status ≠ GrievanceStatus.RESOLVED))

end CivicCare

namespace CivicCare

/-! Status and assignment operations, src/App.tsx, together with the
human-in-the-loop resolution gate of AuthorityDashboard.tsx. -/

/-- Status update of src/App.tsx:
`setGrievances(prev => prev.map(g => g.id === id ? { ...g, status } : g))`. -/
def updateGrievanceStatus (gs : List Grievance) (id : String) (status : GrievanceStatus) :
    List Grievance :=
  gs.map (fun g => if g.id = id then { g with status := status } else g)

/-- Assignment of src/App.tsx:
`prev.map(g => g.id === id ? { ...g, assignedTo: officer || undefined } : g)`. -/
def assignGrievance (gs : List Grievance) (id : String) (officer : String) : List Grievance :=
  gs.map (fun g =>
    if g.id = id then { g with assignedTo := if officer = "" then none else some officer }
    else g)

/-- Whitespace test for the trim model. -/
def isWS (c : Char) : Bool := c = ' ' ∨ c = '\t' ∨ c = '\n' ∨ c = '\r'

/-- Model of the JavaScript String.prototype.trim used by the blank-note
and blank-description guards: strip leading and trailing whitespace. -/
def trimChars (s : String) : String :=
  String.mk (((s.data.dropWhile isWS).reverse.dropWhile isWS).reverse)

/-- Error surfaced by the resolution gate (the spec name for the blocked
confirmResolution path of AuthorityDashboard.tsx). -/
inductive SetStatusError
  | resolutionNoteRequired
deriving DecidableEq, Repr

/-- Combined status transition as driven from the dashboard row buttons:
choosing RESOLVED for a CRITICAL grievance routes through the resolution
modal (initiateResolution), whose confirm button stays disabled while
`!resolutionNote.trim()`, so with a blank note no update happens; every
other combination calls onUpdateStatus directly, which applies
updateGrievanceStatus unconditionally. -/
def setStatus (gs : List Grievance) (g : Grievance) (newStatus : GrievanceStatus)
    (note : String) : Except SetStatusError (List Grievance) :=
  if newStatus = GrievanceStatus.RESOLVED ∧ g.priority = Priority.CRITICAL ∧
      trimChars note = ""
  then Except.error SetStatusError.resolutionNoteRequired
  else Except.ok (updateGrievanceStatus gs g.id newStatus)

end CivicCare

namespace CivicCare

/-! Grievance creation, src/components/CitizenPortal.tsx handleSubmit and
src/App.tsx addGrievance, with src/services/geminiService.ts
analyzeGrievance as the awaited collaborator. -/

/-- Result of `JSON.parse(response.text || Z)` in analyzeGrievance as
consumed by handleSubmit. The response schema asks Gemini for these eight
fields, and handleSubmit reads them without any validation (the cast
`analysis.priority as Priority` is erased at runtime); in particular no
range check is applied to urgencyScore, which this model therefore leaves
an unconstrained natural number. The model covers the responses whose
priority string is one of the four enum values; no code path inspects or
validates it either way. -/
structure AnalysisResult where
  category : String
  priority : Priority
  department : String
  summary : String
  urgencyReason : String
  suggestedResolution : String
  language : String
  urgencyScore : Nat
deriving Repr

/-- Error taxonomy of grievance creation: the catch branch of handleSubmit
(alert Failed to process grievance), named AnalysisFailed by the spec. -/
inductive SubmitError
  | analysisFailed
deriving DecidableEq, Repr

/-- Freshly generated id of CitizenPortal.tsx:
`G-` followed by `Math.floor(Math.random() * 9000 + 1000)`; the random draw
is modelled by the parameter r (the floor of random times 9000). -/
def newGrievanceId (r : Nat) : String := "G-" ++ toString (1000 + r % 9000)

/-- The newGrievance object literal of handleSubmit. The literal carries no
city, state or history fields (they are filled in by addGrievance before
insertion); city and state are the empty string here standing for the
undefined they hold at runtime until addGrievance overwrites them. -/
def newGrievance (r : Nat) (description : String) (image : Option String)
    (location : Option GeoPoint) (analysis : AnalysisResult) (now : Nat) : Grievance :=
  { id := newGrievanceId r
    citizenName := "User Guest"
    citizenPhone := none
    category := analysis.category
    description := description
    location := location
    city := ""
    state := ""
    priority := analysis.priority
    status := GrievanceStatus.PENDING
    timestamp := now
    department := analysis.department
    evidenceUrls := match image with | some i => [i] | none => []
    assignedTo := none
    resolutionNote := none
    aiAnalysis := some
      { sentiment := "Neutral"
        suggestedResolution := analysis.suggestedResolution
        urgencyReason := analysis.urgencyReason
        riskFactors := none
        isCriticalFacility := none
        language := none
        urgencyScore := none
        imageAnalysis := none }
    history := none }

/-- Insertion of src/App.tsx addGrievance: city and state are defaulted from
the active jurisdiction (jurisdiction.city with fallback New Delhi,
jurisdiction.state with fallback Delhi), a fresh Created history entry is written,
and the record is prepended to the list. -/
def addGrievance (jurisdiction : Jurisdiction) (gs : List Grievance) (g : Grievance)
    (now : Nat) : List Grievance :=
  { g with
    city := if jurisdiction.city = "" then "New Delhi" else jurisdiction.city
    state := if jurisdiction.state = "" then "Delhi" else jurisdiction.state
    history := some [{ timestamp := now, action := "Created",
                       details := "Grievance reported by citizen" }] } :: gs

/-- The handleSubmit flow of CitizenPortal.tsx over the App state: a blank
description returns without doing anything; the awaited analyzeGrievance
result is the analysis parameter, Except.error standing for a thrown
rejection (network failure, timeout, or unparseable JSON text) which lands
in the catch branch with no state change; on success onGrievanceSubmit
(addGrievance) inserts the constructed record unconditionally. -/
def handleSubmit (description : String) (image : Option String)
    (location : Option GeoPoint) (r : Nat) (now : Nat) (jurisdiction : Jurisdiction)
    (gs : List Grievance) (analysis : Except Unit AnalysisResult) :
    Except SubmitError (List Grievance) :=
  if trimChars description = "" then Except.ok gs
  else
    match analysis with
    | Except.error _ => Except.error SubmitError.analysisFailed
    | Except.ok a =>
        Except.ok (addGrievance jurisdiction gs (newGrievance r description image location a now) now)

end CivicCare

namespace CivicCare

/-! Helper lemmas. -/

/-- The fixed rank map of the queue comparator is injective. -/
theorem priorityOrder_inj (a b : Priority) : priorityOrder a = priorityOrder b ↔ a = b := by
  cases a <;> cases b <;> decide

/-- Exact-multiple ages: a timestamp exactly k days before now has
diffDays = k. -/
theorem diffDays_exact (ts k : Nat) : diffDays (ts + k * msPerDay) ts = k := by
  unfold diffDays absDiff
  rw [if_pos (Nat.le_add_right ts (k * msPerDay))]
  have h1 : ts + k * msPerDay - ts = k * msPerDay := by omega
  rw [h1]
  have hpos : 0 < msPerDay := by decide
  have h2 : k * msPerDay + msPerDay - 1 = msPerDay * k + (msPerDay - 1) := by
    rw [Nat.mul_comm]
    omega
  rw [h2, Nat.mul_add_div hpos, Nat.div_eq_of_lt (by omega)]
  omega

end CivicCare

namespace CivicCare

/-- C1. The queue ordering sortForQueue (the filteredGrievances sort of
AuthorityDashboard.tsx) returns a permutation of its input in which the
priority rank under the map CRITICAL=3, HIGH=2, MEDIUM=1, LOW=0 is
non-increasing, within equal priority the timestamp is non-increasing, and
elements with equal priority and timestamp keep their relative input order
(stability, stated as filter invariance for every key value). -/
theorem sortForQueue_spec (gs : List Grievance) :
    List.Perm (sortForQueue gs) gs ∧
    (sortForQueue gs).Pairwise
      (fun a b => priorityOrder b.priority ≤ priorityOrder a.priority) ∧
    (sortForQueue gs).Pairwise
      (fun a b => priorityOrder a.priority = priorityOrder b.priority →
        b.timestamp ≤ a.timestamp) ∧
    ∀ p t, (sortForQueue gs).filter (fun g => decide (g.priority = p ∧ g.timestamp = t)) =
      gs.filter (fun g => decide (g.priority = p ∧ g.timestamp = t)) := by
  have hsorted : (sortForQueue gs).Pairwise (keyDescOrder queueKey) :=
    List.sorted_insertionSort (keyDescOrder queueKey) gs
  refine ⟨List.perm_insertionSort (keyDescOrder queueKey) gs, ?_, ?_, ?_⟩
  · refine hsorted.imp ?_
    intro a b hab
    simp only [keyDescOrder, lexLe, queueKey] at hab
    omega
  · refine hsorted.imp ?_
    intro a b hab heq
    simp only [keyDescOrder, lexLe, queueKey] at hab
    omega
  · intro p t
    have hpred : ∀ g : Grievance,
        decide (queueKey g = (priorityOrder p, t)) =
          decide (g.priority = p ∧ g.timestamp = t) := by
      intro g
      refine decide_eq_decide.mpr ?_
      simp only [queueKey, Prod.mk.injEq]
      constructor
      · intro h
        exact ⟨(priorityOrder_inj g.priority p).mp h.1, h.2⟩
      · intro h
        exact ⟨(priorityOrder_inj g.priority p).mpr h.1, h.2⟩
    have e1 : (sortForQueue gs).filter (fun g => decide (queueKey g = (priorityOrder p, t))) =
        (sortForQueue gs).filter (fun g => decide (g.priority = p ∧ g.timestamp = t)) :=
      List.filter_congr (fun g _ => hpred g)
    have e2 : gs.filter (fun g => decide (queueKey g = (priorityOrder p, t))) =
        gs.filter (fun g => decide (g.priority = p ∧ g.timestamp = t)) :=
      List.filter_congr (fun g _ => hpred g)
    rw [← e1, ← e2]
    exact filter_key_insertionSort queueKey gs (priorityOrder p, t)

end CivicCare

namespace CivicCare

/-- Concrete base record used by the closed witness and counterexample
theorems below (fields chosen like the mock data of src/App.tsx). -/
def baseGrievance : Grievance :=
  { id := "G-0"
    citizenName := "User Guest"
    citizenPhone := none
    category := "Public Health & Family Welfare"
    description := "Garbage collection has not happened"
    location := none
    city := "New Delhi"
    state := "Delhi"
    priority := Priority.LOW
    status := GrievanceStatus.PENDING
    timestamp := 0
    department := "Municipal Corporation"
    evidenceUrls := []
    assignedTo := none
    resolutionNote := none
    aiAnalysis := none
    history := none }

/-- C4. SLA boundary of the alert detector: for a past timestamp the age is
the ceiling of the elapsed time over one day, and for a non-terminal,
non-critical grievance an age of exactly 7 days yields no alert while one of
exactly 8 days yields an SLA alert with daysOverdue = 1. -/
theorem detectAlerts_sla_boundary (g : Grievance) (now : Nat)
    (h1 : g.status ≠ GrievanceStatus.RESOLVED) (h2 : g.status ≠ GrievanceStatus.REJECTED)
    (h3 : g.priority ≠ Priority.CRITICAL) (h4 : urgencyScoreOf g < 80) :
    (g.timestamp ≤ now →
      diffDays now g.timestamp = (now - g.timestamp + msPerDay - 1) / msPerDay) ∧
    (g.timestamp + 7 * msPerDay = now → alertFor now g = none) ∧
    (g.timestamp + 8 * msPerDay = now → alertFor now g = some
      { id := g.id, grievance := g, type := AlertType.SLA,
        message := "Overdue by 1 days", daysOverdue := some 1 }) := by
  have hcrit : ¬ isCriticalG g := by
    simp only [isCriticalG, not_or]
    exact ⟨h3, by omega⟩
  refine ⟨?_, ?_, ?_⟩
  · intro h
    unfold diffDays absDiff
    rw [if_pos h]
  · intro h
    have hd : diffDays now g.timestamp = 7 := by
      rw [← h]
      exact diffDays_exact g.timestamp 7
    have hsla : ¬ isSlaBreachG now g := by
      simp [isSlaBreachG, hd]
    simp [alertFor, h1, h2, hsla, hcrit]
  · intro h
    have hd : diffDays now g.timestamp = 8 := by
      rw [← h]
      exact diffDays_exact g.timestamp 8
    have hsla : isSlaBreachG now g := by
      simp [isSlaBreachG, hd]
    simp [alertFor, h1, h2, hsla, hcrit, hd]
    decide

/-- Fixture for the C4 witness: non-terminal, non-critical, created at epoch 0. -/
def g4 : Grievance := { baseGrievance with id := "G-4" }

/-- Witness for C4 at a concrete grievance aged exactly 8 days. -/
theorem detectAlerts_sla_boundary_witness :
    (g4.status ≠ GrievanceStatus.RESOLVED ∧ g4.status ≠ GrievanceStatus.REJECTED ∧
      g4.priority ≠ Priority.CRITICAL ∧ urgencyScoreOf g4 < 80 ∧
      g4.timestamp + 8 * msPerDay = 8 * msPerDay) ∧
    alertFor (8 * msPerDay) g4 = some
      { id := g4.id, grievance := g4, type := AlertType.SLA,
        message := "Overdue by 1 days", daysOverdue := some 1 } :=
  ⟨by decide,
   (detectAlerts_sla_boundary g4 (8 * msPerDay) (by decide) (by decide) (by decide)
     (by decide)).2.2 (by decide)⟩

/-- C3. Resolution gate for critical grievances: resolving a CRITICAL
grievance with a blank note fails with ResolutionNoteRequired (so the set is
not updated), while a non-blank note succeeds and sets the status of the
matching record to RESOLVED. -/
theorem setStatus_critical_gate (gs : List Grievance) (g : Grievance) (note : String)
    (hc : g.priority = Priority.CRITICAL) :
    (trimChars note = "" →
      setStatus gs g GrievanceStatus.RESOLVED note =
        Except.error SetStatusError.resolutionNoteRequired) ∧
    (trimChars note ≠ "" →
      setStatus gs g GrievanceStatus.RESOLVED note =
        Except.ok (updateGrievanceStatus gs g.id GrievanceStatus.RESOLVED) ∧
      ∀ x ∈ updateGrievanceStatus gs g.id GrievanceStatus.RESOLVED,
        x.id = g.id → x.status = GrievanceStatus.RESOLVED) := by
  constructor
  · intro hn
    simp [setStatus, hc, hn]
  · intro hn
    refine ⟨by simp [setStatus, hc, hn], ?_⟩
    intro x hx hid
    simp only [updateGrievanceStatus, List.mem_map] at hx
    obtain ⟨y, hy, hxy⟩ := hx
    by_cases h : y.id = g.id
    · simp only [if_pos h] at hxy
      rw [← hxy]
    · simp only [if_neg h] at hxy
      rw [← hxy] at hid
      exact absurd hid h

/-- Fixture for the C3 witness: a CRITICAL grievance. -/
def gC : Grievance := { baseGrievance with id := "G-C", priority := Priority.CRITICAL }

/-- Witness for C3: blank note blocked, non-blank note resolves. -/
theorem setStatus_critical_gate_witness :
    (gC.priority = Priority.CRITICAL ∧ trimChars "" = "" ∧
      trimChars "Fixed water line" ≠ "") ∧
    setStatus [gC] gC GrievanceStatus.RESOLVED "" =
      Except.error SetStatusError.resolutionNoteRequired ∧
    setStatus [gC] gC GrievanceStatus.RESOLVED "Fixed water line" =
      Except.ok (updateGrievanceStatus [gC] gC.id GrievanceStatus.RESOLVED) :=
  ⟨by decide,
   (setStatus_critical_gate [gC] gC "" rfl).1 (by decide),
   ((setStatus_critical_gate [gC] gC "Fixed water line" rfl).2 (by decide)).1⟩

/-- C10. Operations on an unknown id are silent no-ops: when no grievance in
the list has the given id, updateGrievanceStatus and assignGrievance return
the list unchanged (and, being total functions, raise no error). -/
theorem unknown_id_is_noop (gs : List Grievance) (id : String) (st : GrievanceStatus)
    (officer : String) (h : ∀ g ∈ gs, g.id ≠ id) :
    updateGrievanceStatus gs id st = gs ∧ assignGrievance gs id officer = gs := by
  constructor
  · refine (List.map_congr_left ?_).trans (List.map_id gs)
    intro a ha
    simp [h a ha]
  · refine (List.map_congr_left ?_).trans (List.map_id gs)
    intro a ha
    simp [h a ha]

/-- Fixture for the C10 witness. -/
def gW : Grievance := { baseGrievance with id := "G-W" }

/-- Witness for C10 on a one-element list and a missing id. -/
theorem unknown_id_is_noop_witness :
    updateGrievanceStatus [gW] "G-MISSING" GrievanceStatus.RESOLVED = [gW] ∧
    assignGrievance [gW] "G-MISSING" "Officer Rao" = [gW] :=
  unknown_id_is_noop [gW] "G-MISSING" GrievanceStatus.RESOLVED "Officer Rao" (by decide)

/-- C8 (amended). Status updates and assignments of src/App.tsx change only
status and assignedTo: the history of every record is left untouched; no
history entry is appended by either operation. -/
theorem statusAssign_preserve_history (gs : List Grievance) (id : String)
    (st : GrievanceStatus) (officer : String) :
    (updateGrievanceStatus gs id st).map (fun g => g.history) =
      gs.map (fun g => g.history) ∧
    (assignGrievance gs id officer).map (fun g => g.history) =
      gs.map (fun g => g.history) := by
  constructor
  · unfold updateGrievanceStatus
    rw [List.map_map]
    refine List.map_congr_left ?_
    intro a ha
    by_cases h : a.id = id <;> simp [h]
  · unfold assignGrievance
    rw [List.map_map]
    refine List.map_congr_left ?_
    intro a ha
    by_cases h : a.id = id <;> simp [h]

/-- Fixture for the C8 counterexample: empty history list. -/
def g8 : Grievance := { baseGrievance with id := "G-8", history := some [] }

/-- Counterexample to C8 as stated: a successful status transition and a
successful assignment both leave the history empty, appending nothing. -/
theorem history_not_appended :
    (updateGrievanceStatus [g8] "G-8" GrievanceStatus.IN_PROGRESS).map
        (fun g => (g.status, g.history)) = [(GrievanceStatus.IN_PROGRESS, some [])] ∧
    (assignGrievance [g8] "G-8" "Officer Rao").map
        (fun g => (g.assignedTo, g.history)) = [(some "Officer Rao", some [])] ∧
    g8.history = some [] := by
  decide

/-- Fixture for the C6 failing input: a Pune, Maharashtra grievance. -/
def g6 : Grievance := { baseGrievance with id := "G-6", city := "Pune", state := "Maharashtra" }

/-- Evaluation of the code at the C6 failing input: an officer whose
jurisdiction city is empty, and an admin whose jurisdiction state is empty,
both receive the full list (the guard falls through), not the empty list the
claim requires. -/
theorem relevantGrievances_empty_jurisdiction_leak :
    relevantGrievances [g6] Role.officer (some { state := "Maharashtra", city := "" }) =
      [g6] ∧
    relevantGrievances [g6] Role.admin (some { state := "", city := "Pune" }) = [g6] ∧
    g6.city = "Pune" ∧ g6.state = "Maharashtra" :=
  ⟨rfl, rfl, rfl, rfl⟩

/-- Fixture for the C9 failing input: the mock record G-1024 of src/App.tsx
already present in the working set. -/
def gMock : Grievance :=
  { baseGrievance with
    id := "G-1024"
    citizenName := "Rahul Sharma"
    category := "Road Transport & Highways"
    priority := Priority.HIGH
    department := "Department of Public Works (PWD)" }

/-- The analysis result used by the C9 failing input (well formed). -/
def aSample : AnalysisResult :=
  { category := "Road Transport & Highways"
    priority := Priority.HIGH
    department := "Department of Public Works (PWD)"
    summary := "Deep pothole"
    urgencyReason := "High risk of vehicular accidents"
    suggestedResolution := "Dispatch immediate asphalt repair crew"
    language := "English"
    urgencyScore := 85 }

/-- Evaluation of the code at the C9 failing input: the random draw 24 makes
newGrievanceId produce G-1024, which already identifies the mock record, so
after a successful submission the working set holds two grievances with the
same id and the id column is no longer pairwise distinct. -/
theorem grievance_id_collision :
    newGrievanceId 24 = "G-1024" ∧
    (handleSubmit "Deep pothole on the main crossroad" none none 24 1700000000000
        { state := "Delhi", city := "New Delhi" } [gMock] (Except.ok aSample)).map
      (fun l => l.map (fun g => g.id)) = Except.ok ["G-1024", "G-1024"] ∧
    ¬ (["G-1024", "G-1024"] : List String).Nodup := by
  refine ⟨by decide, rfl, by decide⟩

/-- The malformed analysis of the C7 failing input: urgencyScore far outside
the 0 to 100 range the specification requires to be validated. -/
def aBad : AnalysisResult :=
  { category := "Public Health & Family Welfare"
    priority := Priority.HIGH
    department := "Municipal Corporation"
    summary := "Garbage"
    urgencyReason := "Health hazard"
    suggestedResolution := "Send a collection truck"
    language := "English"
    urgencyScore := 500 }

/-- Evaluation of the code at the C7 failing input: a thrown AI failure is
indeed rejected with AnalysisFailed and adds nothing, but a successfully
parsed malformed response (urgencyScore = 500, out of range) is accepted
without validation and a grievance is created anyway. -/
theorem malformed_analysis_not_rejected :
    100 < aBad.urgencyScore ∧
    handleSubmit "Garbage is piling up" none none 7 1700000000000
        { state := "Delhi", city := "New Delhi" } [] (Except.error ()) =
      Except.error SubmitError.analysisFailed ∧
    (handleSubmit "Garbage is piling up" none none 7 1700000000000
        { state := "Delhi", city := "New Delhi" } [] (Except.ok aBad)).map
      (fun l => l.length) = Except.ok 1 :=
  ⟨by decide, rfl, rfl⟩

end CivicCare

namespace CivicCare

/-- C2. The alert detector: the produced alerts are exactly (as a multiset)
the per-grievance emissions, which are none for terminal or non-qualifying
grievances and exactly one alert with the claimed type, message and
daysOverdue for each qualifying grievance; the output is sorted by severity
rank descending (BOTH=3, CRITICAL=2, SLA=1) and is stable on ties (filter
invariance per severity value). -/
theorem detectAlerts_spec (gs : List Grievance) (now : Nat) :
    List.Perm (detectAlerts gs now) (gs.filterMap (alertFor now)) ∧
    (∀ g : Grievance,
      (g.status = GrievanceStatus.RESOLVED ∨ g.status = GrievanceStatus.REJECTED) →
      alertFor now g = none) ∧
    (∀ g : Grievance, g.status ≠ GrievanceStatus.RESOLVED →
      g.status ≠ GrievanceStatus.REJECTED →
      (¬ isCriticalG g → ¬ isSlaBreachG now g → alertFor now g = none) ∧
      (isCriticalG g → isSlaBreachG now g → alertFor now g = some
        { id := g.id, grievance := g, type := AlertType.BOTH,
          message := "Critical Risk & Overdue (+" ++
            toString (diffDays now g.timestamp - 7) ++ " days)",
          daysOverdue := some (diffDays now g.timestamp - 7) }) ∧
      (isCriticalG g → ¬ isSlaBreachG now g → alertFor now g = some
        { id := g.id, grievance := g, type := AlertType.CRITICAL,
          message := "High Urgency / Critical Priority detected",
          daysOverdue := none }) ∧
      (¬ isCriticalG g → isSlaBreachG now g → alertFor now g = some
        { id := g.id, grievance := g, type := AlertType.SLA,
          message := "Overdue by " ++ toString (diffDays now g.timestamp - 7) ++ " days",
          daysOverdue := some (diffDays now g.timestamp - 7) })) ∧
    (detectAlerts gs now).Pairwise (fun a b => alertScore b.type ≤ alertScore a.type) ∧
    ∀ s, (detectAlerts gs now).filter (fun a => decide (alertScore a.type = s)) =
      (gs.filterMap (alertFor now)).filter (fun a => decide (alertScore a.type = s)) := by
  refine ⟨List.perm_insertionSort (keyDescOrder alertKey) (gs.filterMap (alertFor now)),
    ?_, ?_, ?_, ?_⟩
  · intro g h
    simp [alertFor, h]
  · intro g h1 h2
    refine ⟨?_, ?_, ?_, ?_⟩
    · intro hc hs
      simp [alertFor, h1, h2, hc, hs]
    · intro hc hs
      simp [alertFor, h1, h2, hc, hs]
    · intro hc hs
      simp [alertFor, h1, h2, hc, hs]
    · intro hc hs
      simp [alertFor, h1, h2, hc, hs]
  · have hsorted : (detectAlerts gs now).Pairwise (keyDescOrder alertKey) :=
      List.sorted_insertionSort (keyDescOrder alertKey) (gs.filterMap (alertFor now))
    refine hsorted.imp ?_
    intro a b hab
    simp only [keyDescOrder, lexLe, alertKey] at hab
    omega
  · intro s
    have hpred : ∀ a : DashboardAlert,
        decide (alertKey a = (s, 0)) = decide (alertScore a.type = s) := by
      intro a
      refine decide_eq_decide.mpr ?_
      simp [alertKey, Prod.ext_iff]
    have e1 : (detectAlerts gs now).filter (fun a => decide (alertKey a = (s, 0))) =
        (detectAlerts gs now).filter (fun a => decide (alertScore a.type = s)) :=
      List.filter_congr (fun a _ => hpred a)
    have e2 : (gs.filterMap (alertFor now)).filter (fun a => decide (alertKey a = (s, 0))) =
        (gs.filterMap (alertFor now)).filter (fun a => decide (alertScore a.type = s)) :=
      List.filter_congr (fun a _ => hpred a)
    rw [← e1, ← e2]
    exact filter_key_insertionSort alertKey (gs.filterMap (alertFor now)) (s, 0)

/-- Fixture for the C2 witness: a CRITICAL-priority, non-breached grievance. -/
def g2A : Grievance := { baseGrievance with id := "G-2A", priority := Priority.CRITICAL }

/-- Witness for C2 instantiating the emission branch for a critical,
non-overdue grievance. -/
theorem detectAlerts_spec_witness :
    alertFor 0 g2A = some
      { id := g2A.id, grievance := g2A, type := AlertType.CRITICAL,
        message := "High Urgency / Critical Priority detected",
        daysOverdue := none } :=
  ((detectAlerts_spec [g2A] 0).2.2.1 g2A (by decide) (by decide)).2.2.1
    (by decide) (by decide)

/-- City field preservation of the increments. -/
theorem bumpStat_city (now : Nat) (g : Grievance) (s : CityStat) :
    (bumpStat now g s).city = s.city := rfl

/-- Lookup after one forEach iteration: entries of other cities are
untouched, and the entry of the city of g is the bумped previous entry or a
bumped fresh zero entry. -/
theorem lookupCity_cityStep (now : Nat) (g : Grievance) (m : List CityStat) (c : String) :
    lookupCity (cityStep now g m) c =
      if g.city = c then some (bumpStat now g ((lookupCity m c).getD (zeroStat c)))
      else lookupCity m c := by
  induction m with
  | nil =>
      by_cases h : g.city = c
      · subst h
        simp only [cityStep, lookupCity]
        rw [List.find?_cons_of_pos _ (by simp [bumpStat_city, zeroStat])]
        simp
      · simp only [cityStep, lookupCity]
        rw [List.find?_cons_of_neg _ (by simp [bumpStat_city, zeroStat, h]), if_neg h]
  | cons s rest ih =>
      by_cases hs : s.city = g.city
      · by_cases hc : g.city = c
        · subst hc
          simp only [cityStep, if_pos hs, lookupCity]
          rw [List.find?_cons_of_pos _ (by simp [bumpStat_city, hs]),
            List.find?_cons_of_pos _ (by simp [hs])]
          simp
        · have hsc : s.city ≠ c := fun h => hc (hs.symm.trans h)
          simp only [cityStep, if_pos hs, lookupCity]
          rw [List.find?_cons_of_neg _ (by simp [bumpStat_city, hsc]), if_neg hc,
            List.find?_cons_of_neg _ (by simp [hsc])]
      · by_cases hsc : s.city = c
        · have hc : g.city ≠ c := fun h => hs (hsc.trans h.symm)
          simp only [cityStep, if_neg hs, lookupCity]
          rw [List.find?_cons_of_pos _ (by simp [hsc]), if_neg hc,
            List.find?_cons_of_pos _ (by simp [hsc])]
        · simp only [cityStep, if_neg hs, lookupCity]
          rw [List.find?_cons_of_neg _ (by simp [hsc])]
          simp only [lookupCity] at ih
          rw [ih, List.find?_cons_of_neg _ (by simp [hsc])]

/-- Fold form of the cityStats forEach: starting from any accumulator, the
final entry of a city combines the accumulators entry (if present) with the
exact counts contributed by the processed grievances; a city no grievance
mentions gains no entry. -/
theorem lookupCity_foldl (now : Nat) (gs : List Grievance) :
    ∀ (m : List CityStat) (c : String),
      lookupCity (gs.foldl (fun acc g => cityStep now g acc) m) c =
        match lookupCity m c with
        | some s => some { s with
            active := s.active + activeCount gs c,
            critical := s.critical + criticalCount gs c,
            escalations := s.escalations + escalationCount gs now c }
        | none =>
            if gs.any (fun g => decide (g.city = c)) then
              some { city := c, active := activeCount gs c,
                     critical := criticalCount gs c, avgRes := "0 days",
                     escalations := escalationCount gs now c }
            else none := by
  induction gs with
  | nil =>
      intro m c
      simp only [List.foldl_nil, activeCount, criticalCount, escalationCount,
        List.countP_nil, List.any_nil]
      cases h : lookupCity m c <;> simp [h]
  | cons g gs ih =>
      intro m c
      simp only [List.foldl_cons]
      rw [ih (cityStep now g m) c, lookupCity_cityStep]
      by_cases hg : g.city = c
      · rw [if_pos hg]
        cases h : lookupCity m c
        · simp only [h, Option.getD_none]
          simp only [activeCount, criticalCount, escalationCount, List.countP_cons,
            List.any_cons, bumpStat, zeroStat, hg]
          simp only [decide_True, decide_true_eq_true, Bool.true_or, true_and,
            eq_self_iff_true, if_true, Option.some.injEq, CityStat.mk.injEq,
            decide_eq_true_eq]
          refine ⟨?_, ?_, ?_⟩ <;> split_ifs <;> omega
        · simp only [h, Option.getD_some]
          simp only [activeCount, criticalCount, escalationCount, List.countP_cons,
            bumpStat, hg, Option.some.injEq, CityStat.mk.injEq, true_and,
            decide_eq_true_eq]
          refine ⟨?_, ?_, ?_⟩ <;> split_ifs <;> omega
      · rw [if_neg hg]
        simp only [activeCount, criticalCount, escalationCount, List.countP_cons,
          List.any_cons]
        simp [hg]

/-- C5 (amended). The city rollup maps each city mentioned by the input to
exactly: active = number of its grievances with status other than RESOLVED,
critical = number with CRITICAL priority, and escalations = number with
status other than RESOLVED (REJECTED not excluded) older than 7 days; a city
no input grievance mentions has no entry, so no grievance outside the input
contributes to any count. -/
theorem cityRollup_spec (gs : List Grievance) (now : Nat) (c : String) :
    lookupCity (cityRollup gs now) c =
      if gs.any (fun g => decide (g.city = c)) then
        some { city := c, active := activeCount gs c, critical := criticalCount gs c,
               avgRes := "0 days", escalations := escalationCount gs now c }
      else none := by
  unfold cityRollup
  rw [lookupCity_foldl now gs [] c]
  rfl

/-- Fixture for the C5 counterexample: a REJECTED grievance in Pune created
10 days before the evaluation instant. -/
def gRej : Grievance :=
  { baseGrievance with
    id := "G-R"
    city := "Pune"
    state := "Maharashtra"
    status := GrievanceStatus.REJECTED }

/-- Counterexample to C5 as stated: the 10-day-old REJECTED Pune grievance
is counted as an escalation by the code (escalations = 1), while the claim
counts only non-REJECTED, non-RESOLVED grievances (0 of them here). -/
theorem cityRollup_rejected_escalation :
    (lookupCity (cityRollup [gRej] (10 * msPerDay)) "Pune").map (fun s => s.escalations) =
      some 1 ∧
    [gRej].countP (fun g => decide (g.city = "Pune" ∧
      g.status ≠ GrievanceStatus.RESOLVED ∧ g.status ≠ GrievanceStatus.REJECTED ∧
      7 * msPerDay < absDiff (10 * msPerDay) g.timestamp)) = 0 ∧
    gRej.status = GrievanceStatus.REJECTED := by
  decide

end CivicCare
